import Mathlib

/-!
Shallow embedding of `autoupdate_app_sources/rest_api.py`: the forge adapters
(`GithubAPI`, `GitlabAPI`, `GiteaForgejoAPI`), the download-page adapter
(`DownloadPageAPI`) and the library behaviour they rely on
(`requests.Response.raise_for_status`, `urllib.parse.urljoin`, the two
`re.search` patterns used for forge-root discovery, Python `str` helpers).

Network effects are made explicit: every operation that performs a
`requests.get` takes a `Transport` (the function from URL to the response the
HTTP layer would deliver) and returns, next to its result, the list of URLs it
requested.  Fallible Python code (KeyError, TypeError, raised HTTPError,
failed assertions, StopIteration) is modelled with `Except Err`.
-/

set_option maxRecDepth 10000

/-- JSON values: the shape of `requests.Response.json()` results. -/
inductive Json where
  | null : Json
  | bool (b : Bool) : Json
  | num (n : Int) : Json
  | str (s : String) : Json
  | arr (elems : List Json) : Json
  | obj (fields : List (String × Json)) : Json

/-- The exceptions the embedded code can raise.  Constructors are named after
the spec's error taxonomy where one corresponds (`HTTPError`,
`DiscoveryError` for the failed forge-root assertion, `InvalidProjectError`
for the failed GitHub construction assertion, `ProjectNotFoundError` for the
`StopIteration` of `next()` on an empty search result); the rest keep their
Python names. -/
inductive Err where
  | HTTPError (status : Nat)
  | DiscoveryError
  | InvalidProjectError
  | ProjectNotFoundError
  | KeyError (key : String)
  | TypeError
  | AttributeError
  | AssertionError
  deriving DecidableEq

/-- Python dict lookup over the field list of a JSON object. -/
def jlookup (key : String) : List (String × Json) → Option Json
  | [] => none
  | (k, v) :: rest => if key = k then some v else jlookup key rest

/-- Python `d[k]`: `KeyError` when the key is missing, `TypeError` when the
value is not a dict. -/
def jGet (j : Json) (key : String) : Except Err Json :=
  match j with
  | .obj fields =>
    match jlookup key fields with
    | some v => .ok v
    | none => .error (.KeyError key)
  | _ => .error .TypeError

/-- Python `d.get(k)` on an object: `none` when the key is missing. -/
def Json.get? : Json → String → Option Json
  | .obj fields, key => jlookup key fields
  | _, _ => none

/-- Iterating a JSON value as a Python list: `TypeError` when it is not one. -/
def Json.asArr : Json → Except Err (List Json)
  | .arr elems => .ok elems
  | _ => .error .TypeError

/-- Python `str()` / f-string rendering of scalar JSON values.  The program
only ever interpolates scalars (the numeric GitLab project id and release
source `format` strings); rendering of nested containers is not modelled. -/
def pyStr : Json → String
  | .str s => s
  | .num n => toString n
  | .bool b => if b then "True" else "False"
  | .null => "None"
  | .arr _ => "<list>"
  | .obj _ => "<dict>"

/-- An HTTP response as the adapters observe it through `requests`:
`status` is `r.status_code`, `text` is `r.text` and `json` is `r.json()`
(the parsed form of `text`; the JSON decoder itself is not modelled). -/
structure HttpResp where
  status : Nat
  text : String
  json : Json

/-- The HTTP transport: what `requests.get` delivers for each URL.  Passing
it explicitly makes every network access of an operation visible. -/
def Transport : Type := String → HttpResp

/-- Embeds `requests.Response.raise_for_status()`: raises `HTTPError` carrying the
status code exactly when the status is 4xx or 5xx. -/
def raise_for_status (r : HttpResp) : Except Err Unit :=
  if 400 ≤ r.status ∧ r.status < 600 then .error (.HTTPError r.status) else .ok ()

/-- Python `s.strip(c)` for a one-character strip set. -/
def pyStrip (s : String) (c : Char) : String :=
  String.mk (((s.toList.dropWhile (· = c)).reverse.dropWhile (· = c)).reverse)

/-- Python `s.lstrip(c)` for a one-character strip set. -/
def pyLStrip (s : String) (c : Char) : String :=
  String.mk (s.toList.dropWhile (· = c))

/-- Python `s.replace(pat, rep)` over character lists, fuel-structured so the
kernel can evaluate it (`pat` is never empty in this program); scans left to
right replacing non-overlapping occurrences. -/
def replChars (pat rep : List Char) : Nat → List Char → List Char
  | _, [] => []
  | 0, cs => cs
  | fuel + 1, c :: cs =>
    if pat.isPrefixOf (c :: cs) then rep ++ replChars pat rep fuel (cs.drop (pat.length - 1))
    else c :: replChars pat rep fuel cs

/-- Python `s.replace(pat, rep)`. -/
def pyReplace (s pat rep : String) : String :=
  String.mk (replChars pat.toList rep.toList s.toList.length s.toList)

/-- Python `s.split(sep)` over character lists, fuel-structured (`sep` is
never empty in this program). -/
def splitChars (sep : List Char) : Nat → List Char → List (List Char)
  | _, [] => [[]]
  | 0, cs => [cs]
  | fuel + 1, c :: cs =>
    if sep.isPrefixOf (c :: cs) then
      [] :: splitChars sep fuel (cs.drop (sep.length - 1))
    else
      match splitChars sep fuel cs with
      | [] => [[c]]
      | tok :: rest => (c :: tok) :: rest

/-- Python `s.split(sep)` (always at least one part). -/
def pySplit (s sep : String) : List String :=
  (splitChars sep.toList s.toList.length s.toList).map String.mk

/-- Embeds `"/".join(parts)`. -/
def joinSlash : List String → String
  | [] => ""
  | [x] => x
  | x :: rest => x ++ "/" ++ joinSlash rest

/-- Embeds `s.lower()` (character-wise, as for ASCII scheme names). -/
def pyLower (s : String) : String :=
  String.mk (s.toList.map Char.toLower)

/-- Whether `lit` is a prefix of `s`. -/
def strHasPre (lit s : String) : Bool :=
  lit.toList.isPrefixOf s.toList

/-- Remove a literal prefix once, when present. -/
def dropLit (s lit : String) : String :=
  if strHasPre lit s then String.mk (s.toList.drop lit.toList.length) else s

/-- Python `s.split("/")[-1]` (`split` on a separator never returns an empty
list, so the default is never used). -/
def pyLastSeg (s : String) : String :=
  (pySplit s "/").getLastD ""

/-- Whether an `Except` is a success (`try` without exception). -/
def exOk : Except Err α → Bool
  | .ok _ => true
  | .error _ => false

/-- Whether an `Except` failed with an `HTTPError`. -/
def exHttpErr : Except Err α → Bool
  | .error (.HTTPError _) => true
  | _ => false

/-! ### `urllib.parse.urljoin`

Modelled from CPython's `urllib/parse.py`, restricted to scheme, netloc and
path (the URLs this program joins carry no params, query or fragment). -/

/-- Characters allowed in a URL scheme after the leading letter. -/
def isSchemeChar (c : Char) : Bool :=
  c.isAlphanum || c = '+' || c = '-' || c = '.'

/-- Embeds `urllib.parse`: split off the scheme when the text before the first `:`
is a well-formed scheme (leading ASCII letter, scheme characters only). -/
def splitScheme (url : String) : Option (String × String) :=
  let cs := url.toList
  let before := cs.takeWhile (· ≠ ':')
  if before.length = cs.length ∨ before.length = 0 then none
  else if (cs.headD ' ').isAlpha ∧ before.all isSchemeChar then
    some (String.mk before, String.mk (cs.drop (before.length + 1)))
  else none

/-- Embeds `urllib.parse.urlparse` to (scheme, netloc, path), with a default scheme
as `urljoin` uses it. -/
def urlparse3 (url : String) (dscheme : String) : String × String × String :=
  let sr :=
    match splitScheme url with
    | some (s, rest) => (pyLower s, rest)
    | none => (dscheme, url)
  let scheme := sr.1
  let rest := sr.2
  match rest.toList with
  | '/' :: '/' :: cs =>
    let stop : Char → Bool := fun c => c ≠ '/' ∧ c ≠ '?' ∧ c ≠ '#'
    (scheme, String.mk (cs.takeWhile stop), String.mk (cs.dropWhile stop))
  | _ => (scheme, "", rest)

/-- Embeds `urllib.parse.urlunsplit` restricted to scheme, netloc, path. -/
def urlunparse3 (scheme netloc path : String) : String :=
  let url :=
    if netloc ≠ "" ∨ (path ≠ "" ∧ strHasPre "//" path) then
      "//" ++ netloc ++ (if path ≠ "" ∧ ¬ strHasPre "/" path then "/" ++ path else path)
    else path
  if scheme ≠ "" then scheme ++ ":" ++ url else url

/-- Embeds `urllib.parse.uses_relative`. -/
def usesRelative : List String :=
  ["", "ftp", "http", "gopher", "nntp", "imap", "wais", "file", "https",
   "shttp", "mms", "prospero", "rtsp", "rtspu", "sftp", "svn", "svn+ssh",
   "ws", "wss"]

/-- Embeds `urllib.parse.uses_netloc`. -/
def usesNetloc : List String :=
  ["", "ftp", "http", "gopher", "nntp", "telnet", "imap", "wais", "file",
   "mms", "https", "shttp", "snews", "prospero", "rtsp", "rtspu", "rsync",
   "svn", "svn+ssh", "sftp", "nfs", "git", "git+ssh", "ws", "wss"]

/-- Embeds `urljoin`'s `segments[1:-1] = filter(None, segments[1:-1])`: drop empty
segments strictly between the first and the last. -/
def filterMid (segs : List String) : List String :=
  match segs with
  | [] => []
  | [x] => [x]
  | x :: rest => x :: ((rest.dropLast.filter (· ≠ "")) ++ [rest.getLastD ""])

/-- Embeds `urljoin`'s resolution loop over `.` and `..` segments, with the
trailing-`/` post-processing step. -/
def resolveDots (segs : List String) : List String :=
  let out := segs.foldl
    (fun acc seg =>
      if seg = ".." then acc.dropLast
      else if seg = "." then acc
      else acc ++ [seg]) []
  if segs.getLastD "" = "." ∨ segs.getLastD "" = ".." then out ++ [""] else out

/-- Embeds `urllib.parse.urljoin` on two non-empty strings (the leading emptiness
checks live in `urljoinPy`). -/
def urljoinCore (base url : String) : String :=
  let b := urlparse3 base ""
  let bscheme := b.1
  let bnetloc := b.2.1
  let bpath := b.2.2
  let u := urlparse3 url bscheme
  let uscheme := u.1
  let unetloc := u.2.1
  let upath := u.2.2
  if uscheme ≠ bscheme ∨ ¬ usesRelative.contains uscheme then url
  else if usesNetloc.contains uscheme ∧ unetloc ≠ "" then
    urlunparse3 uscheme unetloc upath
  else
    let netloc := if usesNetloc.contains uscheme then bnetloc else unetloc
    if upath = "" then urlunparse3 uscheme netloc bpath
    else
      let base_parts :=
        let bp := pySplit bpath "/"
        if bp.getLastD "" ≠ "" then bp.dropLast else bp
      let segments :=
        if strHasPre "/" upath then pySplit upath "/"
        else filterMid (base_parts ++ pySplit upath "/")
      let joined := joinSlash (resolveDots segments)
      urlunparse3 uscheme netloc (if joined = "" then "/" else joined)

/-- Embeds `urljoin(base, url)` as the download-page adapter calls it:
`url` is `link.get("href")`, which is `None` when the anchor has no target,
and `urljoin` returns its other argument whenever one of the two is falsy. -/
def urljoinPy (base : String) (url : Option String) : Option String :=
  if base = "" then url
  else
    match url with
    | none => some base
    | some u => if u = "" then some base else some (urljoinCore base u)

/-! ### The two `re.search` patterns of forge-root discovery

GitLab: `re.search(r"const url = `(.*)/api/graphql`", text)` — `.` does not
match a newline, `(.*)` is greedy, `re.search` takes the leftmost position
where the whole pattern matches.

Gitea/Forgejo: `re.search(r"appUrl: '([^']*)',", text)` — `[^']*` cannot
cross a quote, so at a given start position the pattern matches exactly when
the first quote after the opening one is followed by a comma. -/

/-- The literal text before the GitLab capture group. -/
def glMarker : List Char := "const url = `".toList

/-- The literal text after the GitLab capture group. -/
def glSuffix : List Char := "/api/graphql`".toList

/-- The largest offset of `line` at which `glSuffix` starts (the greedy
`(.*)` backtracks to the last occurrence on the line). -/
def lastSuffixPos (line : List Char) : Option Nat :=
  ((List.range (line.length + 1)).filter
    (fun k => glSuffix.isPrefixOf (line.drop k))).getLast?

/-- Match the GitLab pattern anchored at the start of `cs`; returns the
capture group. -/
def glMatchAt (cs : List Char) : Option (List Char) :=
  if glMarker.isPrefixOf cs then
    match lastSuffixPos ((cs.drop glMarker.length).takeWhile (· ≠ '\n')) with
    | some k => some (((cs.drop glMarker.length).takeWhile (· ≠ '\n')).take k)
    | none => none
  else none

/-- Embeds `re.search` for the GitLab pattern: try each start position from the
left. -/
def glSearch : List Char → Option (List Char)
  | [] => none
  | c :: cs =>
    match glMatchAt (c :: cs) with
    | some g => some g
    | none => glSearch cs

/-- The literal text before the Gitea/Forgejo capture group. -/
def gtMarker : List Char := "appUrl: '".toList

/-- Match the Gitea/Forgejo pattern anchored at the start of `cs`; returns
the capture group. -/
def gtMatchAt (cs : List Char) : Option (List Char) :=
  if gtMarker.isPrefixOf cs then
    match (cs.drop gtMarker.length).dropWhile (· ≠ '\'') with
    | '\'' :: ',' :: _ => some ((cs.drop gtMarker.length).takeWhile (· ≠ '\''))
    | _ => none
  else none

/-- Embeds `re.search` for the Gitea/Forgejo pattern. -/
def gtSearch : List Char → Option (List Char)
  | [] => none
  | c :: cs =>
    match gtMatchAt (c :: cs) with
    | some g => some g
    | none => gtSearch cs

/-! ### `RefType` and the GitHub adapter -/

/-- Embeds `class RefType(Enum)`. -/
inductive RefType where
  | tags
  | commits
  | releases
  deriving DecidableEq

/-- The state a constructed `GithubAPI` instance holds. -/
structure GithubAPI where
  upstream : String
  upstream_repo : String
  auth : Option (String × String)
  deriving DecidableEq

/-- Embeds `GithubAPI.__init__`: strips the upstream URL, removes every occurrence
of `https://github.com/` (Python `str.replace` is not anchored), strips
slashes, and asserts the remainder splits on `/` into exactly two parts. -/
def GithubAPI.init (upstream : String) (auth : Option (String × String)) :
    Except Err GithubAPI :=
  let up := pyStrip upstream '/'
  let repo := pyStrip (pyReplace upstream "https://github.com/" "") '/'
  if (pySplit repo "/").length = 2 then .ok ⟨up, repo, auth⟩
  else .error .InvalidProjectError

/-- Embeds `GithubAPI.internal_api`: one GET against `api.github.com`, then
`raise_for_status`, then the JSON body.  The credential pair only shapes the
request, never the result handling, so it does not appear here. -/
def GithubAPI.internal_api (_api : GithubAPI) (uri : String) (t : Transport) :
    Except Err Json × List String :=
  let url := "https://api.github.com/" ++ uri
  (match raise_for_status (t url) with
   | .error e => .error e
   | .ok _ => .ok (t url).json, [url])

/-- Embeds `GithubAPI.tags`. -/
def GithubAPI.tags (api : GithubAPI) (t : Transport) :
    Except Err Json × List String :=
  api.internal_api ("repos/" ++ api.upstream_repo ++ "/tags") t

/-- Embeds `GithubAPI.commits`: native body returned unchanged. -/
def GithubAPI.commits (api : GithubAPI) (t : Transport) :
    Except Err Json × List String :=
  api.internal_api ("repos/" ++ api.upstream_repo ++ "/commits") t

/-- Embeds `GithubAPI.tip_of_branch`: native branch body indexed at `"commit"`,
returned unchanged. -/
def GithubAPI.tip_of_branch (api : GithubAPI) (branch : String)
    (t : Transport) : Except Err Json × List String :=
  let r := api.internal_api ("repos/" ++ api.upstream_repo ++ "/branches/" ++ branch) t
  (r.1.bind (fun body => jGet body "commit"), r.2)

/-- Embeds `GithubAPI.releases`. -/
def GithubAPI.releases (api : GithubAPI) (t : Transport) :
    Except Err Json × List String :=
  api.internal_api ("repos/" ++ api.upstream_repo ++ "/releases?per_page=100") t

/-- Embeds `GithubAPI.url_for_ref`.  The Python `else: raise NotImplementedError`
branch is unreachable: the three `RefType` members are matched exhaustively. -/
def GithubAPI.url_for_ref (api : GithubAPI) (ref : String) (ref_type : RefType) :
    String :=
  match ref_type with
  | .tags => api.upstream ++ "/archive/refs/tags/" ++ ref ++ ".tar.gz"
  | .releases => api.upstream ++ "/archive/refs/tags/" ++ ref ++ ".tar.gz"
  | .commits => api.upstream ++ "/archive/" ++ ref ++ ".tar.gz"

/-- Embeds `GithubAPI.changelog_for_ref`. -/
def GithubAPI.changelog_for_ref (api : GithubAPI) (new_ref old_ref : String)
    (ref_type : RefType) : String :=
  match ref_type with
  | .commits => api.upstream ++ "/compare/" ++ old_ref ++ "..." ++ new_ref
  | _ => api.upstream ++ "/releases/tag/" ++ new_ref

/-! ### The GitLab adapter -/

/-- The state a constructed `GitlabAPI` instance holds (`project_id` is
whatever `project.get("id", None)` returned, hence a JSON value). -/
structure GitlabAPI where
  forge_root : String
  project_path : String
  project_id : Json

/-- Embeds `GitlabAPI.get_forge_root`: fetch the project page and search it for the
GraphQL endpoint constant; the `assert match is not None` is the discovery
failure. -/
def GitlabAPI.get_forge_root (project_url : String) (t : Transport) :
    Except Err String × List String :=
  let r := t project_url
  (match raise_for_status r with
   | .error e => .error e
   | .ok _ =>
     match glSearch r.text.toList with
     | some g => .ok (String.mk g)
     | none => .error .DiscoveryError, [project_url])

/-- Embeds `GitlabAPI.internal_api`. -/
def GitlabAPI.internal_api (forge_root : String) (uri : String) (t : Transport) :
    Except Err Json × List String :=
  let url := forge_root ++ "/api/v4/" ++ uri
  (match raise_for_status (t url) with
   | .error e => .error e
   | .ok _ => .ok (t url).json, [url])

/-- The URL of the direct project lookup in `GitlabAPI.find_project_id`. -/
def gitlabDirectUrl (forge_root project_path : String) : String :=
  forge_root ++ "/api/v4/projects/" ++ pyReplace project_path "/" "%2F"

/-- The URL of the search fallback in `GitlabAPI.find_project_id`. -/
def gitlabSearchUrl (forge_root project_path : String) : String :=
  forge_root ++ "/api/v4/projects?search=" ++ pyLastSeg project_path

/-- Embeds `next(filter(lambda x: x.get("path_with_namespace") == self.project_path,
projects))`: first entry whose `path_with_namespace` is the project path;
`StopIteration` (the spec's `ProjectNotFoundError`) when the iterator is
exhausted; `AttributeError` when an entry reached before a match is not a
dict. -/
def findExact (project_path : String) : List Json → Except Err Json
  | [] => .error .ProjectNotFoundError
  | x :: rest =>
    match x with
    | .obj fields =>
      match jlookup "path_with_namespace" fields with
      | some (.str v) => if v = project_path then .ok x else findExact project_path rest
      | _ => findExact project_path rest
    | _ => .error .AttributeError

/-- The shared tail of `find_project_id`: `assert isinstance(project, dict)`
then `project.get("id", None)`. -/
def pyGetId (project : Json) : Except Err Json :=
  match project with
  | .obj fields => .ok ((jlookup "id" fields).getD .null)
  | _ => .error .AssertionError

/-- Embeds `GitlabAPI.find_project_id`: direct exact-path lookup; on `HTTPError`
with status 404 (and only then) fall back to a search by the last path
segment filtered for an exact `path_with_namespace` match. -/
def GitlabAPI.find_project_id (forge_root project_path : String) (t : Transport) :
    Except Err Json × List String :=
  let dUrl := gitlabDirectUrl forge_root project_path
  let r := t dUrl
  match raise_for_status r with
  | .ok _ => ((pyGetId r.json), [dUrl])
  | .error (.HTTPError s) =>
    if s ≠ 404 then (.error (.HTTPError s), [dUrl])
    else
      let sUrl := gitlabSearchUrl forge_root project_path
      let r2 := t sUrl
      match raise_for_status r2 with
      | .error e => (.error e, [dUrl, sUrl])
      | .ok _ =>
        match r2.json with
        | .arr projects => ((findExact project_path projects).bind pyGetId, [dUrl, sUrl])
        | _ => (.error .TypeError, [dUrl, sUrl])
  | .error e => (.error e, [dUrl])

/-- A Python list comprehension over a fallible element transform: map in
order, the first exception aborting the whole list. -/
def mapEx (f : Json → Except Err Json) : List Json → Except Err (List Json)
  | [] => .ok []
  | x :: xs =>
    match f x with
    | .error e => .error e
    | .ok y =>
      match mapEx f xs with
      | .error e => .error e
      | .ok ys => .ok (y :: ys)

/-- The commit remapping shared by `GitlabAPI.commits` and
`GitlabAPI.tip_of_branch`: `{"sha": c["id"], "commit": {"author": {"date":
c["committed_date"]}}}`. -/
def remapGitlabCommit (c : Json) : Except Err Json :=
  match jGet c "id" with
  | .error e => .error e
  | .ok sha =>
    match jGet c "committed_date" with
    | .error e => .error e
    | .ok d =>
      .ok (.obj [("sha", sha),
                 ("commit", .obj [("author", .obj [("date", d)])])])

/-- Embeds `GitlabAPI.tags`. -/
def GitlabAPI.tags (api : GitlabAPI) (t : Transport) :
    Except Err Json × List String :=
  GitlabAPI.internal_api api.forge_root
    ("projects/" ++ pyStr api.project_id ++ "/repository/tags") t

/-- Embeds `GitlabAPI.commits`: list comprehension remapping every native record
through `remapGitlabCommit`. -/
def GitlabAPI.commits (api : GitlabAPI) (t : Transport) :
    Except Err Json × List String :=
  let r := GitlabAPI.internal_api api.forge_root
    ("projects/" ++ pyStr api.project_id ++ "/repository/commits") t
  (r.1.bind (fun body =>
    (body.asArr).bind (fun l =>
      (mapEx remapGitlabCommit l).bind (fun l2 => .ok (.arr l2)))), r.2)

/-- Embeds `GitlabAPI.tip_of_branch`: index the branch body at `"commit"` and remap
its `id`/`committed_date` fields. -/
def GitlabAPI.tip_of_branch (api : GitlabAPI) (branch : String) (t : Transport) :
    Except Err Json × List String :=
  let r := GitlabAPI.internal_api api.forge_root
    ("projects/" ++ pyStr api.project_id ++ "/repository/branches/" ++ branch) t
  (r.1.bind (fun body => (jGet body "commit").bind remapGitlabCommit), r.2)

/-- One entry of `release["assets"]["links"]` remapped to
`{"name": ..., "browser_download_url": ...}`. -/
def mapLinkAsset (asset : Json) : Except Err Json :=
  match jGet asset "name" with
  | .error e => .error e
  | .ok n =>
    match jGet asset "direct_asset_url" with
    | .error e => .error e
    | .ok u => .ok (.obj [("name", n), ("browser_download_url", u)])

/-- One entry of `release["assets"]["sources"]` synthesized into the asset
`{"name": "source.<format>", "browser_download_url": source["url"]}`. -/
def mapSourceAsset (source : Json) : Except Err Json :=
  match jGet source "format" with
  | .error e => .error e
  | .ok f =>
    match jGet source "url" with
    | .error e => .error e
    | .ok u =>
      .ok (.obj [("name", .str ("source." ++ pyStr f)),
                 ("browser_download_url", u)])

/-- One native GitLab release mapped to the normalized `ReleaseInfo` dict:
`tag_name` copied, `prerelease`/`draft` set to `False`, `html_url` from
`_links.self`, assets from the remapped `links` entries followed by the
synthesized `sources` entries. -/
def mapGitlabRelease (release : Json) : Except Err Json :=
  match jGet release "tag_name" with
  | .error e => .error e
  | .ok tag =>
    match (jGet release "_links").bind (fun l => jGet l "self") with
    | .error e => .error e
    | .ok self_url =>
      match (jGet release "assets").bind (fun a => (jGet a "links").bind Json.asArr) with
      | .error e => .error e
      | .ok links =>
        match mapEx mapLinkAsset links with
        | .error e => .error e
        | .ok linkAssets =>
          match (jGet release "assets").bind (fun a => (jGet a "sources").bind Json.asArr) with
          | .error e => .error e
          | .ok sources =>
            match mapEx mapSourceAsset sources with
            | .error e => .error e
            | .ok sourceAssets =>
              .ok (.obj [("tag_name", tag),
                         ("prerelease", .bool false),
                         ("draft", .bool false),
                         ("html_url", self_url),
                         ("assets", .arr (linkAssets ++ sourceAssets))])

/-- Embeds `GitlabAPI.releases`: every native release remapped through
`mapGitlabRelease`. -/
def GitlabAPI.releases (api : GitlabAPI) (t : Transport) :
    Except Err Json × List String :=
  let r := GitlabAPI.internal_api api.forge_root
    ("projects/" ++ pyStr api.project_id ++ "/releases") t
  (r.1.bind (fun body =>
    (body.asArr).bind (fun l =>
      (mapEx mapGitlabRelease l).bind (fun l2 => .ok (.arr l2)))), r.2)

/-- Embeds `GitlabAPI.url_for_ref`: the ref kind parameter is ignored (`_` in the
source). -/
def GitlabAPI.url_for_ref (api : GitlabAPI) (ref : String) (_kind : RefType) :
    String :=
  let name := pyLastSeg api.project_path
  let clean_ref := pyReplace ref "/" "-"
  api.forge_root ++ "/" ++ api.project_path ++ "/-/archive/" ++ ref ++ "/" ++
    name ++ "-" ++ clean_ref ++ ".tar.bz2"

/-- Embeds `GitlabAPI.changelog_for_ref` (the `else: raise NotImplementedError`
branch is unreachable: all three members are matched). -/
def GitlabAPI.changelog_for_ref (api : GitlabAPI) (new_ref old_ref : String)
    (ref_type : RefType) : String :=
  match ref_type with
  | .commits => api.forge_root ++ "/" ++ api.project_path ++ "/-/compare/" ++
      old_ref ++ "..." ++ new_ref
  | .tags => api.forge_root ++ "/" ++ api.project_path ++ "/-/tags/" ++ new_ref
  | .releases => api.forge_root ++ "/" ++ api.project_path ++ "/-/releases/" ++ new_ref

/-! ### The Gitea/Forgejo adapter -/

/-- The state a constructed `GiteaForgejoAPI` instance holds. -/
structure GiteaForgejoAPI where
  forge_root : String
  project_path : String

/-- Embeds `GiteaForgejoAPI.get_forge_root`: fetch the page, search for the
`appUrl: '...'` assignment and return the captured value with every
backslash removed. -/
def GiteaForgejoAPI.get_forge_root (project_url : String) (t : Transport) :
    Except Err String × List String :=
  let r := t project_url
  (match raise_for_status r with
   | .error e => .error e
   | .ok _ =>
     match gtSearch r.text.toList with
     | some g => .ok (pyReplace (String.mk g) "\\" "")
     | none => .error .DiscoveryError, [project_url])

/-- Embeds `GiteaForgejoAPI.internal_api`. -/
def GiteaForgejoAPI.internal_api (forge_root : String) (uri : String)
    (t : Transport) : Except Err Json × List String :=
  let url := forge_root ++ "/api/v1/" ++ uri
  (match raise_for_status (t url) with
   | .error e => .error e
   | .ok _ => .ok (t url).json, [url])

/-- Embeds `GiteaForgejoAPI.tags`. -/
def GiteaForgejoAPI.tags (api : GiteaForgejoAPI) (t : Transport) :
    Except Err Json × List String :=
  GiteaForgejoAPI.internal_api api.forge_root
    ("repos/" ++ api.project_path ++ "/tags") t

/-- Embeds `GiteaForgejoAPI.commits`: native body returned unchanged — no
remapping happens here. -/
def GiteaForgejoAPI.commits (api : GiteaForgejoAPI) (t : Transport) :
    Except Err Json × List String :=
  GiteaForgejoAPI.internal_api api.forge_root
    ("repos/" ++ api.project_path ++ "/commits") t

/-- The remapping in `GiteaForgejoAPI.tip_of_branch`: `{"sha": c["id"],
"commit": {"author": {"date": c["timestamp"]}}}`. -/
def remapGiteaTip (c : Json) : Except Err Json :=
  match jGet c "id" with
  | .error e => .error e
  | .ok sha =>
    match jGet c "timestamp" with
    | .error e => .error e
    | .ok d =>
      .ok (.obj [("sha", sha),
                 ("commit", .obj [("author", .obj [("date", d)])])])

/-- Embeds `GiteaForgejoAPI.tip_of_branch`. -/
def GiteaForgejoAPI.tip_of_branch (api : GiteaForgejoAPI) (branch : String)
    (t : Transport) : Except Err Json × List String :=
  let r := GiteaForgejoAPI.internal_api api.forge_root
    ("repos/" ++ api.project_path ++ "/branches/" ++ branch) t
  (r.1.bind (fun body => (jGet body "commit").bind remapGiteaTip), r.2)

/-- Embeds `GiteaForgejoAPI.releases`: native body returned unchanged. -/
def GiteaForgejoAPI.releases (api : GiteaForgejoAPI) (t : Transport) :
    Except Err Json × List String :=
  GiteaForgejoAPI.internal_api api.forge_root
    ("repos/" ++ api.project_path ++ "/releases") t

/-- Embeds `GiteaForgejoAPI.url_for_ref`: the ref kind parameter is ignored. -/
def GiteaForgejoAPI.url_for_ref (api : GiteaForgejoAPI) (ref : String)
    (_kind : RefType) : String :=
  api.forge_root ++ "/" ++ api.project_path ++ "/archive/" ++ ref ++ ".tar.gz"

/-- Embeds `GiteaForgejoAPI.changelog_for_ref`. -/
def GiteaForgejoAPI.changelog_for_ref (api : GiteaForgejoAPI)
    (new_ref old_ref : String) (ref_type : RefType) : String :=
  match ref_type with
  | .commits => api.forge_root ++ "/" ++ api.project_path ++ "/compare/" ++
      old_ref ++ "..." ++ new_ref
  | _ => api.forge_root ++ "/" ++ api.project_path ++ "/releases/tag/" ++ new_ref

/-! ### The download-page adapter

`BeautifulSoup(r.text, features="lxml").find_all("a")` is abstracted by a
parser argument of type `String → List Anchor`: an anchor contributes its
`.string` (`None` when the tag has no single visible text node) and its
`href` attribute (`None` when absent). -/

/-- What one `<a>` element contributes: `link.string` and `link.get("href")`. -/
structure Anchor where
  text : Option String
  href : Option String
  deriving DecidableEq

/-- One assignment `d[k] = v` with Python dict semantics: an existing key
keeps its position and takes the new value, a new key is appended. -/
def pyDictSet (d : List (Option String × Option String))
    (k : Option String) (v : Option String) :
    List (Option String × Option String) :=
  match d with
  | [] => [(k, v)]
  | (k0, v0) :: rest =>
    if k = k0 then (k0, v) :: rest else (k0, v0) :: pyDictSet rest k v

/-- The dict comprehension of `get_web_page_links`: keys are the anchors'
text nodes, values the `urljoin`-resolved targets, in document order with
the last occurrence of a key winning. -/
def buildLinkMap (web_page : String) (anchors : List Anchor) :
    List (Option String × Option String) :=
  anchors.foldl (fun d a => pyDictSet d a.text (urljoinPy web_page a.href)) []

/-- The state a constructed `DownloadPageAPI` instance holds. -/
structure DownloadPageAPI where
  web_page : String

/-- Embeds `DownloadPageAPI.get_web_page_links`: fetch the page, parse it, and build
the link map. -/
def DownloadPageAPI.get_web_page_links (api : DownloadPageAPI)
    (soup : String → List Anchor) (t : Transport) :
    Except Err (List (Option String × Option String)) × List String :=
  let r := t api.web_page
  (match raise_for_status r with
   | .error e => .error e
   | .ok _ => .ok (buildLinkMap api.web_page (soup r.text)), [api.web_page])

/-! ### Specification-side definitions (for comparison with the code) -/

/-- The spec's exact normalized `CommitInfo` shape:
`{sha, commit: {author: {date}}}` and nothing else. -/
def isCommitInfo : Json → Bool
  | .obj [("sha", _), ("commit", .obj [("author", .obj [("date", _)])])] => true
  | _ => false

/-- Modelled from the spec's words in claim C3: the upstream string "reduces
to exactly an owner/repo pair" when, after removing the `https://github.com/`
PREFIX (once, at the start) and surrounding slashes, exactly two
slash-separated path segments remain.  To be compared with what
`GithubAPI.init` actually accepts. -/
def specGithubReduces (s : String) : Bool :=
  let stripped := dropLit s "https://github.com/"
  (pySplit (pyStrip stripped '/') "/").length = 2

/-- The acceptance condition `GithubAPI.init` actually tests: Python
`str.replace` removes every occurrence of `https://github.com/`, wherever it
appears. -/
def githubCodeAccepts (s : String) : Bool :=
  (pySplit (pyStrip (pyReplace s "https://github.com/" "") '/') "/").length = 2

/-- No entry of the search result is an exact `path_with_namespace` match
(and every entry is a dict, so the filter can traverse them all). -/
def noExactMatch (project_path : String) (projects : List Json) : Bool :=
  projects.all (fun x =>
    match x with
    | .obj fields =>
      match jlookup "path_with_namespace" fields with
      | some (.str v) => v ≠ project_path
      | _ => true
    | _ => false)

/-! ### Uniform effectful signature for `url_for_ref`

Every adapter operation in this embedding has the shape
`Transport → result × requested URLs`.  The three `url_for_ref` methods fit
that shape with a body that performs no request at all, which is what makes
the spec's purity claim (C6) a statement rather than a typing convention. -/

/-- Embeds `GithubAPI.url_for_ref` in the uniform effectful signature. -/
def GithubAPI.url_for_ref_op (api : GithubAPI) (ref : String) (kind : RefType)
    (_t : Transport) : String × List String :=
  (api.url_for_ref ref kind, [])

/-- Embeds `GitlabAPI.url_for_ref` in the uniform effectful signature. -/
def GitlabAPI.url_for_ref_op (api : GitlabAPI) (ref : String) (kind : RefType)
    (_t : Transport) : String × List String :=
  (api.url_for_ref ref kind, [])

/-- Embeds `GiteaForgejoAPI.url_for_ref` in the uniform effectful signature. -/
def GiteaForgejoAPI.url_for_ref_op (api : GiteaForgejoAPI) (ref : String)
    (kind : RefType) (_t : Transport) : String × List String :=
  (api.url_for_ref ref kind, [])

/-- A concrete native GitLab release: one link-asset, one `zip` sources
entry, and a native `prerelease: true` flag (which the remap ignores). -/
def glRelFixture : Json := .obj [
  ("tag_name", .str "v1"),
  ("prerelease", .bool true),
  ("_links", .obj [("self", .str "http://g/r/v1")]),
  ("assets", .obj [
    ("links", .arr [.obj [("name", .str "a.bin"),
                          ("direct_asset_url", .str "http://g/a.bin")]]),
    ("sources", .arr [.obj [("format", .str "zip"),
                            ("url", .str "http://g/src.zip")]])])]

/-- What `mapGitlabRelease` produces on `glRelFixture`. -/
def glRelFixtureOut : Json := .obj [
  ("tag_name", .str "v1"),
  ("prerelease", .bool false),
  ("draft", .bool false),
  ("html_url", .str "http://g/r/v1"),
  ("assets", .arr [
    .obj [("name", .str "a.bin"), ("browser_download_url", .str "http://g/a.bin")],
    .obj [("name", .str "source.zip"), ("browser_download_url", .str "http://g/src.zip")]])]

/-- A Gitea/Forgejo adapter fixture. -/
def gtFixtureApi : GiteaForgejoAPI := ⟨"http://h", "o/r"⟩

/-- A transport whose commits endpoint answers with a record that is not in
`CommitInfo` shape. -/
def oddCommitsTransport : Transport := fun _ => ⟨200, "", .arr [.obj [("x", .num 1)]]⟩

/-- The download-page fixture: base URL `http://h/dir/`. -/
def dlFixture : DownloadPageAPI := ⟨"http://h/dir/"⟩

/-- A parse result with one ordinary anchor, one anchor without a text node
and one anchor without an href. -/
def fixtureSoup : String → List Anchor := fun _ =>
  [⟨some "Name", some "/x"⟩, ⟨none, some "/y"⟩, ⟨some "T", none⟩]

/-- A transport that always answers 200. -/
def okTransport : Transport := fun _ => ⟨200, "<html>", .null⟩

/-- A transport serving a GitLab page whose GraphQL marker contains
JavaScript-escaped slashes. -/
def glEscPage : Transport := fun _ =>
  ⟨200, "const url = `http:\\/\\/h/api/graphql`", .null⟩

/-- A transport serving the spec's GitLab fixture page. -/
def glFixturePage : Transport := fun _ =>
  ⟨200, "<script>const url = `https://gitlab.example.com/api/graphql`</script>", .null⟩

/-- A transport serving a Gitea/Forgejo fixture page. -/
def gtFixturePage : Transport := fun _ =>
  ⟨200, "window.config appUrl: 'https://gitea.example.com/', more", .null⟩

/-- A GitHub adapter fixture. -/
def ghFixtureApi : GithubAPI := ⟨"https://github.com/o/r", "o/r", none⟩

/-- A GitLab adapter fixture. -/
def glFixtureApi : GitlabAPI := ⟨"http://h", "g/p", .num 7⟩

/-- A transport that always answers 404. -/
def t404 : Transport := fun _ => ⟨404, "", .null⟩

/-- A transport that always answers 300 (non-2xx, but not 4xx/5xx). -/
def t300 : Transport := fun _ => ⟨300, "", .arr []⟩

/-- A transport whose direct project lookup succeeds. -/
def tDirectOk : Transport := fun u =>
  if u = gitlabDirectUrl "http://h" "g/p" then ⟨200, "", .obj [("id", .num 42)]⟩
  else ⟨500, "", .null⟩

/-- A transport that 404s the direct lookup but answers the search with two
candidates, the second an exact path match. -/
def tSearchFallback : Transport := fun u =>
  if u = gitlabDirectUrl "http://h" "g/p" then ⟨404, "", .null⟩
  else if u = gitlabSearchUrl "http://h" "g/p" then
    ⟨200, "", .arr [.obj [("path_with_namespace", .str "other/p"), ("id", .num 1)],
                    .obj [("path_with_namespace", .str "g/p"), ("id", .num 7)]]⟩
  else ⟨500, "", .null⟩

/-- A transport that always answers 500. -/
def tServerErr : Transport := fun _ => ⟨500, "", .null⟩

/-- A transport that 404s the direct lookup and answers the search with an
empty result list. -/
def tSearchEmpty : Transport := fun u =>
  if u = gitlabDirectUrl "http://h" "g/p" then ⟨404, "", .null⟩
  else if u = gitlabSearchUrl "http://h" "g/p" then ⟨200, "", .arr []⟩
  else ⟨500, "", .null⟩

/-! ### Theorems for the claims -/

/-- C6: `url_for_ref` is a pure function of (ref, kind, adapter
configuration) for each of the three forge adapters: in the uniform
effectful operation signature it is deterministic — two calls with the same
adapter state, ref and kind agree for any two transports — and it issues no
request (its request trace is empty). -/
theorem url_for_ref_deterministic_no_network
    (gh : GithubAPI) (gl : GitlabAPI) (gf : GiteaForgejoAPI)
    (ref : String) (kind : RefType) (t t' : Transport) :
    ((gh.url_for_ref_op ref kind t).1 = (gh.url_for_ref_op ref kind t').1 ∧
      (gh.url_for_ref_op ref kind t).2 = []) ∧
    ((gl.url_for_ref_op ref kind t).1 = (gl.url_for_ref_op ref kind t').1 ∧
      (gl.url_for_ref_op ref kind t).2 = []) ∧
    ((gf.url_for_ref_op ref kind t).1 = (gf.url_for_ref_op ref kind t').1 ∧
      (gf.url_for_ref_op ref kind t).2 = []) :=
  ⟨⟨rfl, rfl⟩, ⟨rfl, rfl⟩, ⟨rfl, rfl⟩⟩

/-- C7: the GitLab `url_for_ref` ignores the ref kind entirely, and its
result is the `.tar.bz2` archive path whose filename is built from the last
segment of the project path and the ref with every `/` replaced by `-`. -/
theorem gitlab_url_for_ref_ignores_kind (api : GitlabAPI) (ref : String)
    (k1 k2 : RefType) :
    api.url_for_ref ref k1 = api.url_for_ref ref k2 ∧
    api.url_for_ref ref k1 =
      api.forge_root ++ "/" ++ api.project_path ++ "/-/archive/" ++ ref ++ "/" ++
        pyLastSeg api.project_path ++ "-" ++ pyReplace ref "/" "-" ++ ".tar.bz2" ∧
    ∃ stem, api.url_for_ref ref k1 = stem ++ ".tar.bz2" :=
  ⟨rfl, rfl, ⟨_, rfl⟩⟩

/-- C10: whatever the native release carries (even an explicit
`prerelease: true`), `GitlabAPI.releases`' per-release remap emits
`prerelease = False` and `draft = False` unconditionally. -/
theorem gitlab_release_prerelease_draft_false (release out : Json)
    (h : mapGitlabRelease release = .ok out) :
    out.get? "prerelease" = some (.bool false) ∧
    out.get? "draft" = some (.bool false) := by
  unfold mapGitlabRelease at h
  repeat' split at h
  all_goals injection h
  all_goals subst out
  exact ⟨rfl, rfl⟩

/-- Witness for C10 at `glRelFixture`: the native record says
`prerelease: true`, the normalized record says `false` anyway. -/
theorem gitlab_release_prerelease_draft_false_witness :
    mapGitlabRelease glRelFixture = .ok glRelFixtureOut ∧
    glRelFixture.get? "prerelease" = some (.bool true) ∧
    glRelFixtureOut.get? "prerelease" = some (.bool false) ∧
    glRelFixtureOut.get? "draft" = some (.bool false) :=
  ⟨rfl, rfl,
   gitlab_release_prerelease_draft_false glRelFixture glRelFixtureOut rfl⟩

/-- C4: the GitLab release remap turns each `assets.links` entry into
`{name, browser_download_url}`, then appends one synthesized
`source.<format>` asset per `assets.sources` entry (URL taken from the
source entry); on a native release with one link-asset and one `zip` source
the result has exactly two assets, the second named `source.zip`. -/
theorem gitlab_release_assets_links_then_sources :
    (∀ a n u, jGet a "name" = .ok n → jGet a "direct_asset_url" = .ok u →
      mapLinkAsset a = .ok (.obj [("name", n), ("browser_download_url", u)])) ∧
    (∀ s f u, jGet s "format" = .ok (.str f) → jGet s "url" = .ok u →
      mapSourceAsset s =
        .ok (.obj [("name", .str ("source." ++ f)), ("browser_download_url", u)])) ∧
    (∀ release out links sources linkAssets sourceAssets,
      (jGet release "assets").bind (fun a => (jGet a "links").bind Json.asArr) = .ok links →
      (jGet release "assets").bind (fun a => (jGet a "sources").bind Json.asArr) = .ok sources →
      mapEx mapLinkAsset links = .ok linkAssets →
      mapEx mapSourceAsset sources = .ok sourceAssets →
      mapGitlabRelease release = .ok out →
      out.get? "assets" = some (.arr (linkAssets ++ sourceAssets))) ∧
    (mapGitlabRelease glRelFixture = .ok glRelFixtureOut ∧
      glRelFixtureOut.get? "assets" = some (.arr [
        .obj [("name", .str "a.bin"), ("browser_download_url", .str "http://g/a.bin")],
        .obj [("name", .str "source.zip"), ("browser_download_url", .str "http://g/src.zip")]]) ∧
      ([Json.obj [("name", .str "a.bin"), ("browser_download_url", .str "http://g/a.bin")],
        Json.obj [("name", .str "source.zip"), ("browser_download_url", .str "http://g/src.zip")]].length = 2)) := by
  refine ⟨?_, ?_, ?_, rfl, rfl, rfl⟩
  · intro a n u h1 h2
    simp [mapLinkAsset, h1, h2]
  · intro s f u h1 h2
    simp [mapSourceAsset, h1, h2, pyStr]
  · intro release out links sources linkAssets sourceAssets h1 h2 h3 h4 h5
    unfold mapGitlabRelease at h5
    repeat' split at h5
    all_goals injection h5
    all_goals subst out
    all_goals simp_all [Json.get?, jlookup]

/-- Witness for C4: the general assets equation instantiated at
`glRelFixture`. -/
theorem gitlab_release_assets_links_then_sources_witness :
    glRelFixtureOut.get? "assets" = some (.arr (
      [Json.obj [("name", .str "a.bin"), ("browser_download_url", .str "http://g/a.bin")]] ++
      [Json.obj [("name", .str "source.zip"), ("browser_download_url", .str "http://g/src.zip")]])) :=
  gitlab_release_assets_links_then_sources.2.2.1 glRelFixture glRelFixtureOut
    [.obj [("name", .str "a.bin"), ("direct_asset_url", .str "http://g/a.bin")]]
    [.obj [("format", .str "zip"), ("url", .str "http://g/src.zip")]]
    [.obj [("name", .str "a.bin"), ("browser_download_url", .str "http://g/a.bin")]]
    [.obj [("name", .str "source.zip"), ("browser_download_url", .str "http://g/src.zip")]]
    rfl rfl rfl rfl rfl

/-- Helper: a successful `remapGitlabCommit` always lands in the exact
`CommitInfo` shape. -/
theorem remapGitlabCommit_shape (c out : Json)
    (h : remapGitlabCommit c = .ok out) : isCommitInfo out = true := by
  unfold remapGitlabCommit at h
  repeat' split at h
  all_goals injection h
  all_goals subst out
  rfl

/-- Helper: a successful `remapGiteaTip` always lands in the exact
`CommitInfo` shape. -/
theorem remapGiteaTip_shape (c out : Json)
    (h : remapGiteaTip c = .ok out) : isCommitInfo out = true := by
  unfold remapGiteaTip at h
  repeat' split at h
  all_goals injection h
  all_goals subst out
  rfl

/-- Helper: every element of a successful `mapEx` comes from `f` succeeding
on some input element. -/
theorem mapEx_ok_mem (f : Json → Except Err Json) :
    ∀ (xs ys : List Json), mapEx f xs = .ok ys →
      ∀ y ∈ ys, ∃ x, f x = .ok y := by
  intro xs
  induction xs with
  | nil =>
    intro ys h y hy
    unfold mapEx at h
    injection h
    subst ys
    simp at hy
  | cons x xs ih =>
    intro ys h y hy
    unfold mapEx at h
    repeat' split at h
    all_goals injection h
    subst ys
    rcases List.mem_cons.mp hy with h1 | h2
    · subst h1
      exact ⟨x, by assumption⟩
    · exact ih _ (by assumption) y h2

/-- Helper: unfolding an `Except.bind` whose head is known. -/
theorem exBind_ok {α β : Type} (a : α) (f : α → Except Err β) :
    (Except.ok a).bind f = f a := rfl

/-- Helper: an errored `Except.bind` stays the same error. -/
theorem exBind_err {α β : Type} (e : Err) (f : α → Except Err β) :
    (Except.error e : Except Err α).bind f = .error e := rfl

/-- C1 (amended): the operations that remap — GitLab `commits()`, GitLab
`tip_of_branch()` and Gitea/Forgejo `tip_of_branch()` — always produce
records in the exact normalized `CommitInfo` shape
`{sha, commit: {author: {date}}}` (GitLab from `id`/`committed_date`,
Gitea/Forgejo from `id`/`timestamp`); GitHub `commits()`,
GitHub `tip_of_branch()` and Gitea/Forgejo `commits()` return the native
records unchanged, so those are in `CommitInfo` shape only when the native
response already is. -/
theorem commitinfo_shape_per_operation :
    (∀ c out, remapGitlabCommit c = .ok out → isCommitInfo out = true) ∧
    (∀ c out, remapGiteaTip c = .ok out → isCommitInfo out = true) ∧
    (∀ api t out, (GitlabAPI.commits api t).1 = .ok out →
      ∃ l, out = .arr l ∧ ∀ j ∈ l, isCommitInfo j = true) ∧
    (∀ api branch t out, (GitlabAPI.tip_of_branch api branch t).1 = .ok out →
      isCommitInfo out = true) ∧
    (∀ api branch t out, (GiteaForgejoAPI.tip_of_branch api branch t).1 = .ok out →
      isCommitInfo out = true) ∧
    (∀ api t out, (GiteaForgejoAPI.commits api t).1 = .ok out →
      out = (t (api.forge_root ++ "/api/v1/" ++
        ("repos/" ++ api.project_path ++ "/commits"))).json) ∧
    (∀ api t out, (GithubAPI.commits api t).1 = .ok out →
      out = (t ("https://api.github.com/" ++
        ("repos/" ++ api.upstream_repo ++ "/commits"))).json) ∧
    (∀ api branch t out, (GithubAPI.tip_of_branch api branch t).1 = .ok out →
      jGet (t ("https://api.github.com/" ++
        ("repos/" ++ api.upstream_repo ++ "/branches/" ++ branch))).json "commit" = .ok out) := by
  refine ⟨remapGitlabCommit_shape, remapGiteaTip_shape, ?_, ?_, ?_, ?_, ?_, ?_⟩
  · intro api t out h
    unfold GitlabAPI.commits at h
    simp only at h
    rcases hI : (GitlabAPI.internal_api api.forge_root
      ("projects/" ++ pyStr api.project_id ++ "/repository/commits") t).1 with e | body
    · rw [hI, exBind_err] at h
      cases h
    · rw [hI, exBind_ok] at h
      rcases hA : body.asArr with e | l
      · rw [hA, exBind_err] at h
        cases h
      · rw [hA, exBind_ok] at h
        rcases hM : mapEx remapGitlabCommit l with e | l2
        · rw [hM, exBind_err] at h
          cases h
        · rw [hM, exBind_ok] at h
          injection h with h2
          refine ⟨l2, h2.symm, ?_⟩
          intro j hj
          rcases mapEx_ok_mem remapGitlabCommit l l2 hM j hj with ⟨x, hx⟩
          exact remapGitlabCommit_shape x j hx
  · intro api branch t out h
    unfold GitlabAPI.tip_of_branch at h
    simp only at h
    rcases hI : (GitlabAPI.internal_api api.forge_root
      ("projects/" ++ pyStr api.project_id ++ "/repository/branches/" ++ branch) t).1 with e | body
    · rw [hI, exBind_err] at h
      cases h
    · rw [hI, exBind_ok] at h
      rcases hC : jGet body "commit" with e | c
      · rw [hC, exBind_err] at h
        cases h
      · rw [hC, exBind_ok] at h
        exact remapGitlabCommit_shape c out h
  · intro api branch t out h
    unfold GiteaForgejoAPI.tip_of_branch at h
    simp only at h
    rcases hI : (GiteaForgejoAPI.internal_api api.forge_root
      ("repos/" ++ api.project_path ++ "/branches/" ++ branch) t).1 with e | body
    · rw [hI, exBind_err] at h
      cases h
    · rw [hI, exBind_ok] at h
      rcases hC : jGet body "commit" with e | c
      · rw [hC, exBind_err] at h
        cases h
      · rw [hC, exBind_ok] at h
        exact remapGiteaTip_shape c out h
  · intro api t out h
    unfold GiteaForgejoAPI.commits GiteaForgejoAPI.internal_api at h
    simp only at h
    split at h
    · cases h
    · injection h with h2
      exact h2.symm
  · intro api t out h
    unfold GithubAPI.commits GithubAPI.internal_api at h
    simp only at h
    split at h
    · cases h
    · injection h with h2
      exact h2.symm
  · intro api branch t out h
    unfold GithubAPI.tip_of_branch GithubAPI.internal_api at h
    simp only at h
    split at h
    · rw [exBind_err] at h
      cases h
    · rw [exBind_ok] at h
      exact h

/-- Witness for C1: the GitLab remap on a concrete native commit and the
Gitea/Forgejo tip remap on a concrete native branch commit both land in the
`CommitInfo` shape. -/
theorem commitinfo_shape_per_operation_witness :
    isCommitInfo (.obj [("sha", .str "abc123"),
      ("commit", .obj [("author", .obj [("date", .str "2024-01-01T00:00:00Z")])])]) = true ∧
    isCommitInfo (.obj [("sha", .str "deadbeef"),
      ("commit", .obj [("author", .obj [("date", .str "2024-06-01T00:00:00Z")])])]) = true :=
  ⟨commitinfo_shape_per_operation.1
      (.obj [("id", .str "abc123"), ("committed_date", .str "2024-01-01T00:00:00Z")]) _ rfl,
   commitinfo_shape_per_operation.2.1
      (.obj [("id", .str "deadbeef"), ("timestamp", .str "2024-06-01T00:00:00Z")]) _ rfl⟩

/-- Counterexample to C1 as stated: the Gitea/Forgejo `commits()` operation
passes the native records through unchanged, so a native response record
outside the `CommitInfo` shape is returned as-is — not every adapter
normalizes both operations for every native response. -/
theorem gitea_commits_record_not_commitinfo :
    (GiteaForgejoAPI.commits gtFixtureApi oddCommitsTransport).1 =
      .ok (.arr [.obj [("x", .num 1)]]) ∧
    isCommitInfo (.obj [("x", .num 1)]) = false :=
  ⟨rfl, rfl⟩

/-- Counterexample to C3 as stated: `"a/https://github.com/b"` does not
reduce to two path segments by removing the `https://github.com/` prefix
(there is no such prefix), yet construction succeeds, because Python
`str.replace` deletes the substring wherever it occurs. -/
theorem github_init_unanchored_replace :
    specGithubReduces "a/https://github.com/b" = false ∧
    GithubAPI.init "a/https://github.com/b" none =
      .ok ⟨"a/https://github.com/b", "a/b", none⟩ := by
  constructor
  · rfl
  · rfl

/-- C3 (amended): GitHub adapter construction succeeds exactly for the
upstream strings that reduce to two slash-separated segments after deleting
every occurrence of the substring `https://github.com/` and stripping
surrounding slashes; all other strings fail with `InvalidProjectError`. -/
theorem github_init_two_segments (s : String) (auth : Option (String × String)) :
    (githubCodeAccepts s = true →
      GithubAPI.init s auth =
        .ok ⟨pyStrip s '/', pyStrip (pyReplace s "https://github.com/" "") '/', auth⟩) ∧
    (githubCodeAccepts s = false →
      GithubAPI.init s auth = .error .InvalidProjectError) := by
  constructor
  · intro h
    unfold githubCodeAccepts at h
    unfold GithubAPI.init
    simp only [decide_eq_true_eq] at h
    rw [if_pos h]
  · intro h
    unfold githubCodeAccepts at h
    unfold GithubAPI.init
    simp only [decide_eq_false_iff_not] at h
    rw [if_neg h]

/-- Witness for C3: a plain `https://github.com/owner/repo` URL constructs,
a one-segment string fails with `InvalidProjectError`. -/
theorem github_init_two_segments_witness :
    GithubAPI.init "https://github.com/owner/repo" none =
      .ok ⟨"https://github.com/owner/repo", "owner/repo", none⟩ ∧
    GithubAPI.init "not-a-repo" none = .error .InvalidProjectError :=
  ⟨(github_init_two_segments "https://github.com/owner/repo" none).1 (by decide),
   (github_init_two_segments "not-a-repo" none).2 (by decide)⟩

/-- Helper: after `d[k] = v`, looking up `k` yields `v`. -/
theorem pyDictSet_lookup_self (d : List (Option String × Option String))
    (k v : Option String) : (pyDictSet d k v).lookup k = some v := by
  induction d with
  | nil => simp [pyDictSet, List.lookup]
  | cons p rest ih =>
    obtain ⟨k0, v0⟩ := p
    by_cases h : k = k0
    · subst h
      simp [pyDictSet, List.lookup]
    · simp only [pyDictSet, if_neg h, List.lookup]
      rw [show (k == k0) = false by simpa using h]
      exact ih

/-- Helper: `d[k] = v` leaves every other key's lookup unchanged. -/
theorem pyDictSet_lookup_other (d : List (Option String × Option String))
    (k k2 v : Option String) (h : k2 ≠ k) :
    (pyDictSet d k v).lookup k2 = d.lookup k2 := by
  induction d with
  | nil =>
    simp only [pyDictSet, List.lookup]
    rw [show (k2 == k) = false by simpa using h]
  | cons p rest ih =>
    obtain ⟨k0, v0⟩ := p
    by_cases hk : k = k0
    · subst hk
      simp only [pyDictSet, if_pos rfl, List.lookup]
      rw [show (k2 == k) = false by simpa using h]
    · simp only [pyDictSet, if_neg hk, List.lookup]
      by_cases h2 : k2 = k0
      · subst h2
        simp
      · rw [show (k2 == k0) = false by simpa using h2]
        exact ih

/-- Helper: folding further anchors over the link map never deletes a key. -/
theorem linkMapLoop_preserves (base : String) (anchors : List Anchor)
    (d : List (Option String × Option String)) (k v0 : Option String)
    (h : d.lookup k = some v0) :
    ∃ v, (anchors.foldl
        (fun d a => pyDictSet d a.text (urljoinPy base a.href)) d).lookup k = some v := by
  induction anchors generalizing d v0 with
  | nil => exact ⟨v0, h⟩
  | cons a rest ih =>
    simp only [List.foldl]
    by_cases hk : k = a.text
    · subst hk
      exact ih _ _ (pyDictSet_lookup_self d a.text (urljoinPy base a.href))
    · refine ih _ v0 ?_
      rw [pyDictSet_lookup_other d a.text k (urljoinPy base a.href) hk]
      exact h

/-- Helper: anchors whose text differs from `k` leave `k`'s lookup alone. -/
theorem linkMapLoop_untouched (base : String) (anchors : List Anchor)
    (d : List (Option String × Option String)) (k : Option String)
    (h : ∀ b ∈ anchors, b.text ≠ k) :
    (anchors.foldl
      (fun d a => pyDictSet d a.text (urljoinPy base a.href)) d).lookup k = d.lookup k := by
  induction anchors generalizing d with
  | nil => rfl
  | cons a rest ih =>
    simp only [List.foldl]
    rw [ih _ (fun b hb => h b (List.mem_cons_of_mem a hb))]
    exact pyDictSet_lookup_other d a.text k (urljoinPy base a.href)
      (fun he => h a (List.mem_cons_self a rest) he.symm)

/-- Helper: a member anchor's text is a key of the fold result, from any
starting dict. -/
theorem linkMapLoop_key_present (base : String) (anchors : List Anchor)
    (a : Anchor) (ha : a ∈ anchors) :
    ∀ d, ∃ v, (anchors.foldl
      (fun d a => pyDictSet d a.text (urljoinPy base a.href)) d).lookup a.text = some v := by
  induction anchors with
  | nil => cases ha
  | cons b rest ih =>
    intro d
    rcases List.mem_cons.mp ha with h1 | h2
    · subst h1
      simp only [List.foldl]
      exact linkMapLoop_preserves base rest _ a.text _
        (pyDictSet_lookup_self d a.text (urljoinPy base a.href))
    · exact ih h2 (pyDictSet d b.text (urljoinPy base b.href))

/-- Helper: every anchor of the page contributes its text as a key of the
final link map. -/
theorem buildLinkMap_key_present (base : String) (anchors : List Anchor)
    (a : Anchor) (ha : a ∈ anchors) :
    ∃ v, (buildLinkMap base anchors).lookup a.text = some v :=
  linkMapLoop_key_present base anchors a ha []

/-- Helper: the last anchor carrying a given text determines that key's
value in the link map: its href resolved against the page URL. -/
theorem buildLinkMap_last_wins (base : String) (pre post : List Anchor)
    (a : Anchor) (h : ∀ b ∈ post, b.text ≠ a.text) :
    (buildLinkMap base (pre ++ a :: post)).lookup a.text =
      some (urljoinPy base a.href) := by
  unfold buildLinkMap
  rw [List.foldl_append]
  simp only [List.foldl]
  rw [linkMapLoop_untouched base post _ a.text h]
  exact pyDictSet_lookup_self _ a.text (urljoinPy base a.href)

/-- Counterexample to C2 as stated: anchors without a visible text node or
without a target are NOT omitted — the textless anchor contributes an entry
under the key `None`, and the targetless anchor maps its text to the page's
own URL (`urljoin(base, None)` returns `base`). -/
theorem anchors_without_text_or_target_not_omitted :
    (DownloadPageAPI.get_web_page_links dlFixture fixtureSoup okTransport).1 =
      .ok [(some "Name", some "http://h/x"),
           (none, some "http://h/y"),
           (some "T", some "http://h/dir/")] ∧
    ((none : Option String), (some "http://h/y" : Option String)) ∈
      [((some "Name" : Option String), (some "http://h/x" : Option String)),
       (none, some "http://h/y"), (some "T", some "http://h/dir/")] ∧
    ((some "T" : Option String), (some "http://h/dir/" : Option String)) ∈
      [((some "Name" : Option String), (some "http://h/x" : Option String)),
       (none, some "http://h/y"), (some "T", some "http://h/dir/")] := by
  refine ⟨rfl, by simp, by simp⟩

/-- C2 (amended): on a 200 response, `get_web_page_links` returns the link
map built over all parsed anchors: keyed by each anchor's text node (`None`
when absent — such anchors are kept, not skipped), with each target resolved
through `urljoin` against the page's own URL (an absent target resolves to
the page URL itself); the last anchor with a given text determines its
value, and the claim's concrete example holds. -/
theorem web_page_links_mapping (api : DownloadPageAPI)
    (soup : String → List Anchor) (t : Transport)
    (h200 : (t api.web_page).status = 200) :
    (api.get_web_page_links soup t).1 =
      .ok (buildLinkMap api.web_page (soup (t api.web_page).text)) ∧
    (∀ a ∈ soup (t api.web_page).text,
      ∃ v, (buildLinkMap api.web_page (soup (t api.web_page).text)).lookup a.text = some v) ∧
    (∀ pre post a, (∀ b ∈ post, b.text ≠ a.text) →
      (buildLinkMap api.web_page (pre ++ a :: post)).lookup a.text =
        some (urljoinPy api.web_page a.href)) ∧
    buildLinkMap "http://h/dir/" [⟨some "Name", some "/x"⟩] =
      [(some "Name", some "http://h/x")] := by
  refine ⟨?_, ?_, ?_, rfl⟩
  · have hr : raise_for_status (t api.web_page) = .ok () := by
      unfold raise_for_status
      rw [h200]
      rw [if_neg]
      omega
    simp [DownloadPageAPI.get_web_page_links, hr]
  · intro a ha
    exact buildLinkMap_key_present api.web_page _ a ha
  · intro pre post a h
    exact buildLinkMap_last_wins api.web_page pre post a h

/-- Witness for C2 at the fixture: the full mapping comes back, and the
`Name` anchor's entry is `/x` resolved to `http://h/x`. -/
theorem web_page_links_mapping_witness :
    (DownloadPageAPI.get_web_page_links dlFixture fixtureSoup okTransport).1 =
      .ok (buildLinkMap "http://h/dir/"
        [⟨some "Name", some "/x"⟩, ⟨none, some "/y"⟩, ⟨some "T", none⟩]) ∧
    (buildLinkMap "http://h/dir/"
        [⟨some "Name", some "/x"⟩, ⟨none, some "/y"⟩, ⟨some "T", none⟩]).lookup
      (some "Name") = some (some "http://h/x") :=
  ⟨(web_page_links_mapping dlFixture fixtureSoup okTransport rfl).1,
   (web_page_links_mapping dlFixture fixtureSoup okTransport rfl).2.2.1
     [] [⟨none, some "/y"⟩, ⟨some "T", none⟩] ⟨some "Name", some "/x"⟩
     (by decide)⟩

/-- Helper: a GitLab pattern match anchored at `cs` means `cs` literally
starts with the marker, the capture and the suffix in sequence. -/
theorem glMatchAt_decomp (cs g : List Char) (h : glMatchAt cs = some g) :
    ∃ mid, cs = glMarker ++ (g ++ (glSuffix ++ mid)) := by
  unfold glMatchAt at h
  split at h
  case isFalse => cases h
  case isTrue hp =>
    obtain ⟨rest, hrest⟩ := List.isPrefixOf_iff_prefix.mp hp
    have hdrop : cs.drop glMarker.length = rest := by
      rw [← hrest]
      exact List.drop_left _ _
    rw [hdrop] at h
    split at h
    case h_2 => cases h
    case h_1 k heq =>
      injection h with hg
      unfold lastSuffixPos at heq
      have hk := List.of_mem_filter (List.mem_of_mem_getLast? heq)
      obtain ⟨t2, ht2⟩ := List.isPrefixOf_iff_prefix.mp hk
      refine ⟨t2 ++ rest.dropWhile (· ≠ '\n'), ?_⟩
      have hline : rest.takeWhile (· ≠ '\n') = g ++ (glSuffix ++ t2) := by
        rw [← hg, ht2, List.take_append_drop]
      have hrest2 : rest = g ++ (glSuffix ++ t2) ++ rest.dropWhile (· ≠ '\n') := by
        conv_lhs => rw [← List.takeWhile_append_dropWhile (p := (· ≠ '\n')) (l := rest)]
        rw [hline]
      rw [← hrest]
      conv_lhs => rw [hrest2]
      simp [List.append_assoc]

/-- Helper: a successful GitLab search yields the capture between the
marker and the suffix somewhere in the text. -/
theorem glSearch_decomp (cs g : List Char) (h : glSearch cs = some g) :
    ∃ pre mid, cs = pre ++ (glMarker ++ (g ++ (glSuffix ++ mid))) := by
  induction cs with
  | nil => cases h
  | cons c cs ih =>
    unfold glSearch at h
    split at h
    case h_1 g2 hm =>
      injection h with hg
      subst hg
      obtain ⟨mid, hmid⟩ := glMatchAt_decomp (c :: cs) g2 hm
      exact ⟨[], mid, by simpa using hmid⟩
    case h_2 hm =>
      obtain ⟨pre, mid, hp⟩ := ih h
      exact ⟨c :: pre, mid, by simp [hp]⟩

/-- Helper: a Gitea/Forgejo pattern match anchored at `cs` means `cs`
literally starts with the marker, the quote-free capture, a quote and a
comma in sequence. -/
theorem gtMatchAt_decomp (cs g : List Char) (h : gtMatchAt cs = some g) :
    ∃ mid, cs = gtMarker ++ (g ++ ('\'' :: ',' :: mid)) := by
  unfold gtMatchAt at h
  split at h
  case isFalse => cases h
  case isTrue hp =>
    obtain ⟨rest, hrest⟩ := List.isPrefixOf_iff_prefix.mp hp
    have hdrop : cs.drop gtMarker.length = rest := by
      rw [← hrest]
      exact List.drop_left _ _
    rw [hdrop] at h
    split at h
    case h_2 => cases h
    case h_1 tail heq =>
      injection h with hg
      refine ⟨tail, ?_⟩
      have hrest2 : rest = g ++ ('\'' :: ',' :: tail) := by
        rw [← hg, ← heq, List.takeWhile_append_dropWhile]
      rw [← hrest, hrest2]

/-- Helper: a successful Gitea/Forgejo search yields the capture between
the marker and the quote-comma close somewhere in the text. -/
theorem gtSearch_decomp (cs g : List Char) (h : gtSearch cs = some g) :
    ∃ pre mid, cs = pre ++ (gtMarker ++ (g ++ ('\'' :: ',' :: mid))) := by
  induction cs with
  | nil => cases h
  | cons c cs ih =>
    unfold gtSearch at h
    split at h
    case h_1 g2 hm =>
      injection h with hg
      subst hg
      obtain ⟨mid, hmid⟩ := gtMatchAt_decomp (c :: cs) g2 hm
      exact ⟨[], mid, by simpa using hmid⟩
    case h_2 hm =>
      obtain ⟨pre, mid, hp⟩ := ih h
      exact ⟨c :: pre, mid, by simp [hp]⟩

/-- Counterexample to C5 as stated: the GitLab branch of forge-root
discovery returns the captured substring verbatim — the backslash escapes
are NOT removed (the `.replace("\\", "")` step exists only in the
Gitea/Forgejo adapter). -/
theorem gitlab_forgeroot_keeps_escapes :
    (GitlabAPI.get_forge_root "http://page" glEscPage).1 = .ok "http:\\/\\/h" ∧
    pyReplace "http:\\/\\/h" "\\" "" = "http://h" ∧
    ("http:\\/\\/h" : String) ≠ "http://h" := by
  refine ⟨rfl, rfl, by decide⟩

/-- C5 (amended): on a 200 response, forge-root discovery returns exactly
the substring that precedes the known suffix inside the forge-specific
marker — for GitLab everything before `` /api/graphql` `` after
`` const url = ` ``, returned verbatim; for Gitea/Forgejo the `appUrl`
value between the quotes, with every backslash removed — and fails with
`DiscoveryError` when the pattern is absent from the page body. -/
theorem forgeroot_discovery_exact (page_url : String) (t : Transport)
    (h200 : (t page_url).status = 200) :
    (∀ g, glSearch (t page_url).text.toList = some g →
      (GitlabAPI.get_forge_root page_url t).1 = .ok (String.mk g) ∧
      ∃ pre mid, (t page_url).text.toList =
        pre ++ (glMarker ++ (g ++ (glSuffix ++ mid)))) ∧
    (glSearch (t page_url).text.toList = none →
      (GitlabAPI.get_forge_root page_url t).1 = .error .DiscoveryError) ∧
    (∀ g, gtSearch (t page_url).text.toList = some g →
      (GiteaForgejoAPI.get_forge_root page_url t).1 =
        .ok (pyReplace (String.mk g) "\\" "") ∧
      ∃ pre mid, (t page_url).text.toList =
        pre ++ (gtMarker ++ (g ++ ('\'' :: ',' :: mid)))) ∧
    (gtSearch (t page_url).text.toList = none →
      (GiteaForgejoAPI.get_forge_root page_url t).1 = .error .DiscoveryError) := by
  have hr : raise_for_status (t page_url) = .ok () := by
    unfold raise_for_status
    rw [h200]
    rw [if_neg]
    omega
  refine ⟨?_, ?_, ?_, ?_⟩
  · intro g hg
    refine ⟨?_, glSearch_decomp _ g hg⟩
    simp only [String.toList] at hg
    simp [GitlabAPI.get_forge_root, hr, hg]
  · intro hg
    simp only [String.toList] at hg
    simp [GitlabAPI.get_forge_root, hr, hg]
  · intro g hg
    refine ⟨?_, gtSearch_decomp _ g hg⟩
    simp only [String.toList] at hg
    simp [GiteaForgejoAPI.get_forge_root, hr, hg]
  · intro hg
    simp only [String.toList] at hg
    simp [GiteaForgejoAPI.get_forge_root, hr, hg]

/-- Witness for C5: on the fixture pages, discovery returns exactly the
root preceding `/api/graphql`, respectively the `appUrl` value. -/
theorem forgeroot_discovery_exact_witness :
    (GitlabAPI.get_forge_root "http://page" glFixturePage).1 =
      .ok "https://gitlab.example.com" ∧
    (GiteaForgejoAPI.get_forge_root "http://page" gtFixturePage).1 =
      .ok "https://gitea.example.com/" :=
  ⟨((forgeroot_discovery_exact "http://page" glFixturePage rfl).1
      "https://gitlab.example.com".toList rfl).1,
   ((forgeroot_discovery_exact "http://page" gtFixturePage rfl).2.2.1
      "https://gitea.example.com/".toList rfl).1⟩

/-- Helper: `raise_for_status` on a 4xx/5xx response raises `HTTPError`
with that status. -/
theorem raise_for_status_4xx5xx (r : HttpResp) (s : Nat) (hs : r.status = s)
    (h4 : 400 ≤ s) (h6 : s < 600) :
    raise_for_status r = .error (.HTTPError s) := by
  unfold raise_for_status
  rw [hs, if_pos ⟨h4, h6⟩]

/-- Counterexample to C8 as stated: a 300 response is non-2xx, yet
`raise_for_status` does not raise — the operation returns the parsed body
as a success instead of failing with `HTTPError` carrying 300. -/
theorem non_2xx_not_always_httperror :
    (GithubAPI.tags ghFixtureApi t300).1 = .ok (.arr []) ∧
    exHttpErr (GithubAPI.tags ghFixtureApi t300).1 = false ∧
    raise_for_status ⟨300, "", .arr []⟩ = .ok () := by
  refine ⟨rfl, rfl, rfl⟩

/-- C8 (amended): when the transport answers with a 4xx or 5xx status, every
network operation of every adapter — tags, commits, tip_of_branch, releases,
and the page fetches — fails with `HTTPError` carrying exactly that status
code, after exactly one request (no retry; the error propagates to the
caller).  Statuses outside 4xx/5xx (1xx/3xx reaching the client) are not
raised by `raise_for_status`. -/
theorem http_4xx_5xx_error_propagation (t : Transport) (s : Nat)
    (hall : ∀ u, (t u).status = s) (h4 : 400 ≤ s) (h6 : s < 600)
    (gh : GithubAPI) (gl : GitlabAPI) (gf : GiteaForgejoAPI)
    (dl : DownloadPageAPI) (branch : String) (soup : String → List Anchor) :
    ((GithubAPI.tags gh t).1 = .error (.HTTPError s) ∧ (GithubAPI.tags gh t).2.length = 1) ∧
    ((GithubAPI.commits gh t).1 = .error (.HTTPError s) ∧ (GithubAPI.commits gh t).2.length = 1) ∧
    ((GithubAPI.tip_of_branch gh branch t).1 = .error (.HTTPError s) ∧
      (GithubAPI.tip_of_branch gh branch t).2.length = 1) ∧
    ((GithubAPI.releases gh t).1 = .error (.HTTPError s) ∧ (GithubAPI.releases gh t).2.length = 1) ∧
    ((GitlabAPI.tags gl t).1 = .error (.HTTPError s) ∧ (GitlabAPI.tags gl t).2.length = 1) ∧
    ((GitlabAPI.commits gl t).1 = .error (.HTTPError s) ∧ (GitlabAPI.commits gl t).2.length = 1) ∧
    ((GitlabAPI.tip_of_branch gl branch t).1 = .error (.HTTPError s) ∧
      (GitlabAPI.tip_of_branch gl branch t).2.length = 1) ∧
    ((GitlabAPI.releases gl t).1 = .error (.HTTPError s) ∧ (GitlabAPI.releases gl t).2.length = 1) ∧
    ((GiteaForgejoAPI.tags gf t).1 = .error (.HTTPError s) ∧ (GiteaForgejoAPI.tags gf t).2.length = 1) ∧
    ((GiteaForgejoAPI.commits gf t).1 = .error (.HTTPError s) ∧ (GiteaForgejoAPI.commits gf t).2.length = 1) ∧
    ((GiteaForgejoAPI.tip_of_branch gf branch t).1 = .error (.HTTPError s) ∧
      (GiteaForgejoAPI.tip_of_branch gf branch t).2.length = 1) ∧
    ((GiteaForgejoAPI.releases gf t).1 = .error (.HTTPError s) ∧ (GiteaForgejoAPI.releases gf t).2.length = 1) ∧
    ((GitlabAPI.get_forge_root dl.web_page t).1 = .error (.HTTPError s) ∧
      (GitlabAPI.get_forge_root dl.web_page t).2.length = 1) ∧
    ((GiteaForgejoAPI.get_forge_root dl.web_page t).1 = .error (.HTTPError s) ∧
      (GiteaForgejoAPI.get_forge_root dl.web_page t).2.length = 1) ∧
    ((dl.get_web_page_links soup t).1 = .error (.HTTPError s) ∧
      (dl.get_web_page_links soup t).2.length = 1) := by
  have hraise : ∀ u, raise_for_status (t u) = .error (.HTTPError s) := fun u =>
    raise_for_status_4xx5xx (t u) s (hall u) h4 h6
  and_intros <;>
    simp [GithubAPI.tags, GithubAPI.commits, GithubAPI.tip_of_branch,
      GithubAPI.releases, GithubAPI.internal_api,
      GitlabAPI.tags, GitlabAPI.commits, GitlabAPI.tip_of_branch,
      GitlabAPI.releases, GitlabAPI.internal_api, GitlabAPI.get_forge_root,
      GiteaForgejoAPI.tags, GiteaForgejoAPI.commits,
      GiteaForgejoAPI.tip_of_branch, GiteaForgejoAPI.releases,
      GiteaForgejoAPI.internal_api, GiteaForgejoAPI.get_forge_root,
      DownloadPageAPI.get_web_page_links, hraise, exBind_err]

/-- Witness for C8 at status 404: HTTP 404 yields `HTTPError` with status
404 on a representative operation of each adapter and on the page fetch. -/
theorem http_4xx_5xx_error_propagation_witness :
    (GithubAPI.tags ghFixtureApi t404).1 = .error (.HTTPError 404) ∧
    (GitlabAPI.commits glFixtureApi t404).1 = .error (.HTTPError 404) ∧
    (GiteaForgejoAPI.tip_of_branch gtFixtureApi "main" t404).1 = .error (.HTTPError 404) ∧
    (DownloadPageAPI.get_web_page_links dlFixture fixtureSoup t404).1 = .error (.HTTPError 404) := by
  have h := http_4xx_5xx_error_propagation t404 404 (fun u => rfl)
    (by decide) (by decide) ghFixtureApi glFixtureApi gtFixtureApi dlFixture
    "main" fixtureSoup
  exact ⟨h.1.1, h.2.2.2.2.2.1.1, h.2.2.2.2.2.2.2.2.2.2.1.1, h.2.2.2.2.2.2.2.2.2.2.2.2.2.2.1⟩

/-- Helper: `raise_for_status` outside 4xx/5xx is a no-op. -/
theorem raise_for_status_pass (r : HttpResp)
    (h : r.status < 400 ∨ 600 ≤ r.status) : raise_for_status r = .ok () := by
  unfold raise_for_status
  rw [if_neg (by omega)]

/-- Helper: when no search entry matches the project path exactly, the
filtered `next()` raises — `ProjectNotFoundError`. -/
theorem noExactMatch_findExact (path : String) (projects : List Json)
    (h : noExactMatch path projects = true) :
    findExact path projects = .error .ProjectNotFoundError := by
  induction projects with
  | nil => rfl
  | cons x rest ih =>
    unfold noExactMatch at h
    simp only [List.all_cons, Bool.and_eq_true] at h
    obtain ⟨hx, hrest⟩ := h
    have hrec : findExact path rest = .error .ProjectNotFoundError :=
      ih (by unfold noExactMatch; exact hrest)
    cases x with
    | obj fields =>
      cases hl : jlookup "path_with_namespace" fields with
      | none => simp [findExact, hl, hrec]
      | some v =>
        cases v with
        | str s' =>
          simp only [hl, decide_eq_true_eq] at hx
          simp [findExact, hl, hx, hrec]
        | null => simp [findExact, hl, hrec]
        | bool b => simp [findExact, hl, hrec]
        | num n => simp [findExact, hl, hrec]
        | arr elems => simp [findExact, hl, hrec]
        | obj fields2 => simp [findExact, hl, hrec]
    | null => cases hx
    | bool b => cases hx
    | num n => cases hx
    | str s' => cases hx
    | arr elems => cases hx

/-- C9: GitLab project-id resolution — the exact-path direct lookup decides
everything unless it fails with HTTP 404: a 2xx direct answer is used as-is
(one request, no fallback); a non-404 HTTP error propagates unchanged (one
request, no fallback); on a 404 and only then, one search request by the
last path segment follows and its results are filtered for an exact
`path_with_namespace` match; an empty filter result is
`ProjectNotFoundError`. -/
theorem gitlab_find_project_id_resolution (t : Transport) (root path : String) :
    ((t (gitlabDirectUrl root path)).status = 200 →
      GitlabAPI.find_project_id root path t =
        (pyGetId (t (gitlabDirectUrl root path)).json, [gitlabDirectUrl root path])) ∧
    (∀ s, (t (gitlabDirectUrl root path)).status = s → 400 ≤ s → s < 600 → s ≠ 404 →
      GitlabAPI.find_project_id root path t =
        (.error (.HTTPError s), [gitlabDirectUrl root path])) ∧
    (∀ projects, (t (gitlabDirectUrl root path)).status = 404 →
      (t (gitlabSearchUrl root path)).status = 200 →
      (t (gitlabSearchUrl root path)).json = .arr projects →
      GitlabAPI.find_project_id root path t =
        ((findExact path projects).bind pyGetId,
         [gitlabDirectUrl root path, gitlabSearchUrl root path])) ∧
    (∀ projects, (t (gitlabDirectUrl root path)).status = 404 →
      (t (gitlabSearchUrl root path)).status = 200 →
      (t (gitlabSearchUrl root path)).json = .arr projects →
      noExactMatch path projects = true →
      GitlabAPI.find_project_id root path t =
        (.error .ProjectNotFoundError,
         [gitlabDirectUrl root path, gitlabSearchUrl root path])) := by
  have hsearch : ∀ projects, (t (gitlabDirectUrl root path)).status = 404 →
      (t (gitlabSearchUrl root path)).status = 200 →
      (t (gitlabSearchUrl root path)).json = .arr projects →
      GitlabAPI.find_project_id root path t =
        ((findExact path projects).bind pyGetId,
         [gitlabDirectUrl root path, gitlabSearchUrl root path]) := by
    intro projects hd hs hj
    have hr1 : raise_for_status (t (gitlabDirectUrl root path)) =
        .error (.HTTPError 404) :=
      raise_for_status_4xx5xx _ 404 hd (by omega) (by omega)
    have hr2 : raise_for_status (t (gitlabSearchUrl root path)) = .ok () :=
      raise_for_status_pass _ (by omega)
    simp [GitlabAPI.find_project_id, hr1, hr2, hj]
  refine ⟨?_, ?_, hsearch, ?_⟩
  · intro h200
    have hr : raise_for_status (t (gitlabDirectUrl root path)) = .ok () :=
      raise_for_status_pass _ (by omega)
    simp [GitlabAPI.find_project_id, hr]
  · intro s hd h4 h6 hne
    have hr : raise_for_status (t (gitlabDirectUrl root path)) =
        .error (.HTTPError s) :=
      raise_for_status_4xx5xx _ s hd h4 h6
    simp [GitlabAPI.find_project_id, hr, hne]
  · intro projects hd hs hj hnone
    rw [hsearch projects hd hs hj, noExactMatch_findExact path projects hnone]
    rfl

/-- Witness for C9: all four resolution behaviours at concrete transports —
direct hit, non-404 error propagated without fallback, 404 with exact-match
fallback (the non-matching candidate is skipped), and 404 with an empty
search yielding `ProjectNotFoundError`. -/
theorem gitlab_find_project_id_resolution_witness :
    GitlabAPI.find_project_id "http://h" "g/p" tDirectOk =
      (.ok (.num 42), [gitlabDirectUrl "http://h" "g/p"]) ∧
    GitlabAPI.find_project_id "http://h" "g/p" tServerErr =
      (.error (.HTTPError 500), [gitlabDirectUrl "http://h" "g/p"]) ∧
    GitlabAPI.find_project_id "http://h" "g/p" tSearchFallback =
      (.ok (.num 7),
       [gitlabDirectUrl "http://h" "g/p", gitlabSearchUrl "http://h" "g/p"]) ∧
    GitlabAPI.find_project_id "http://h" "g/p" tSearchEmpty =
      (.error .ProjectNotFoundError,
       [gitlabDirectUrl "http://h" "g/p", gitlabSearchUrl "http://h" "g/p"]) := by
  refine ⟨?_, ?_, ?_, ?_⟩
  · rw [(gitlab_find_project_id_resolution tDirectOk "http://h" "g/p").1 rfl]
    rfl
  · rw [(gitlab_find_project_id_resolution tServerErr "http://h" "g/p").2.1
      500 rfl (by decide) (by decide) (by decide)]
  · rw [(gitlab_find_project_id_resolution tSearchFallback "http://h" "g/p").2.2.1
      [.obj [("path_with_namespace", .str "other/p"), ("id", .num 1)],
       .obj [("path_with_namespace", .str "g/p"), ("id", .num 7)]] rfl rfl rfl]
    rfl
  · rw [(gitlab_find_project_id_resolution tSearchEmpty "http://h" "g/p").2.2.2
      [] rfl rfl rfl rfl]
